import Mathlib

/-!
Verification of the NetMark scalability-testing subsystem: the server-side
metrics collection of Server_regNoSend.py and the client-side load
generator of load_test.py.  Durations and wall-clock instants are modelled
as exact rationals; Python float literals such as 0.95 are modelled by the
corresponding exact rationals.
-/

/-- Ascending sort, modelling Python sorted on a list of durations.  Over
the total order on the rationals the sorted list of values is determined
uniquely by the multiset, so stability is immaterial. -/
def sortQ (xs : List ℚ) : List ℚ := xs.insertionSort (· ≤ ·)

/-- Model of the Python expression int(n * p) for a nonnegative rational p,
as used for the percentile indices; int truncation coincides with floor on
nonnegative values. -/
def pyIdx (n : ℕ) (p : ℚ) : ℕ := (⌊(n : ℚ) * p⌋).toNat

/-- Python max over a nonempty list (0 on the empty list, which the code
never reaches). -/
def pyMax : List ℚ → ℚ
  | [] => 0
  | x :: xs => xs.foldl max x

/-- Python min over a nonempty list. -/
def pyMin : List ℚ → ℚ
  | [] => 0
  | x :: xs => xs.foldl min x

/-- The _scalability_metrics module-level dict of Server_regNoSend.py
(lines 22-29).  The response_times defaultdict mapping an endpoint to its
ordered bucket of elapsed times is modelled as an insertion-ordered
association list. -/
structure ServerMetrics where
  response_times : List (String × List ℚ)
  concurrent_requests : Int
  total_requests : Nat
  failed_requests : Nat
  start_time : Option ℚ
  test_active : Bool

/-- The value of _scalability_metrics at process start. -/
def initialMetrics : ServerMetrics :=
  { response_times := [], concurrent_requests := 0, total_requests := 0,
    failed_requests := 0, start_time := none, test_active := false }

/-- Appending one elapsed time to the bucket of an endpoint in the
response_times defaultdict: extend the bucket when the key exists,
otherwise create a new singleton bucket. -/
def appendSample : List (String × List ℚ) → String → ℚ → List (String × List ℚ)
  | [], e, t => [(e, [t])]
  | (e', ts) :: rest, e, t =>
    if e' = e then (e', ts ++ [t]) :: rest else (e', ts) :: appendSample rest e t

/-- The after_request middleware (lines 84-94): while a test is active, the
elapsed time of the finished request is appended to the bucket of its
endpoint, total_requests is incremented, and failed_requests is
incremented when the response status is at least 400; when no test is
active the state is untouched. -/
def after_request (s : ServerMetrics) (endpoint : String) (elapsed : ℚ) (status : Nat) :
    ServerMetrics :=
  if s.test_active then
    { s with
      response_times := appendSample s.response_times endpoint elapsed
      total_requests := s.total_requests + 1
      failed_requests := if 400 ≤ status then s.failed_requests + 1 else s.failed_requests }
  else s

/-- Outcome of the /stress_test/start handler: the HTTP status, the echoed
concurrentUsers field of the success body (none on the error body), and
the metrics state after the call. -/
structure StartResult where
  status : Nat
  concurrentUsers : Option Int
  state : ServerMetrics

/-- The start_stress_test handler (lines 379-409).  The body argument
models request.get_json(): none when no JSON body is available, some none
when the JSON object omits concurrentUsers, and some (some k) when it
carries the integer k; data.get defaults a missing field to 10.  Out of
range values are rejected with 400 before any state is touched; in-range
values reset the whole metrics state under the lock. -/
def start_stress_test (body : Option (Option Int)) (s : ServerMetrics) (now : ℚ) :
    StartResult :=
  let concurrent_users : Int := (body.getD none).getD 10
  if concurrent_users < 1 ∨ 1000 < concurrent_users then
    { status := 400, concurrentUsers := none, state := s }
  else
    { status := 200, concurrentUsers := some concurrent_users,
      state := { response_times := [], concurrent_requests := concurrent_users,
                 total_requests := 0, failed_requests := 0,
                 start_time := some now, test_active := true } }

/-- The stop_stress_test handler (lines 411-429): clears the active flag,
leaves every piece of collected data intact, and answers 200
unconditionally. -/
def stop_stress_test (s : ServerMetrics) : Nat × ServerMetrics :=
  (200, { s with test_active := false })

/-- Model of the expression
time.perf_counter() - start_time if start_time else 0
with Python truthiness: both None and 0.0 select the else branch. -/
def elapsedTime (start : Option ℚ) (now : ℚ) : ℚ :=
  match start with
  | none => 0
  | some t => if t = 0 then 0 else now - t

/-- The median of get_scalability_metrics (line 446):
times_sorted[n // 2] if n > 0 else 0. -/
def median_metrics (times : List ℚ) : ℚ :=
  if 0 < times.length then (sortQ times).getD (times.length / 2) 0 else 0

/-- The p95 of get_scalability_metrics (line 449):
times_sorted[int(n * 0.95)] if n > 1 else times[0]. -/
def p95_metrics (times : List ℚ) : ℚ :=
  if 1 < times.length then (sortQ times).getD (pyIdx times.length (19/20)) 0
  else times.getD 0 0

/-- The p99 of get_scalability_metrics (line 450):
times_sorted[int(n * 0.99)] if n > 1 else times[0]. -/
def p99_metrics (times : List ℚ) : ℚ :=
  if 1 < times.length then (sortQ times).getD (pyIdx times.length (99/100)) 0
  else times.getD 0 0

/-- The expression sum((t - mean_time) ** 2 for t in times) / n of
generate_scalability_report (line 499): the population variance whose
square root the code reports as the standard deviation. -/
def serverVariance (times : List ℚ) : ℚ :=
  (times.map (fun t => (t - times.sum / (times.length : ℚ)) ^ 2)).sum / (times.length : ℚ)

/-- Population variance in moment form, the mean of the squares minus the
square of the mean; stated from the words of the specification to pin down
the meaning of population standard deviation (divide by n). -/
def momentVariance (xs : List ℚ) : ℚ :=
  (xs.map (fun t => t ^ 2)).sum / (xs.length : ℚ) - (xs.sum / (xs.length : ℚ)) ^ 2

/-- One entry of report[endpoint_analysis] (lines 502-513).  The std_dev_ms
value of the code is an irrational square root; it is represented here by
its square std_dev_ms_sq, which determines it uniquely since the reported
value is nonnegative. -/
structure EndpointAnalysis where
  total_requests : Nat
  mean_response_time_ms : ℚ
  median_response_time_ms : ℚ
  std_dev_ms_sq : ℚ
  min_response_time_ms : ℚ
  max_response_time_ms : ℚ
  p95_response_time_ms : ℚ
  p99_response_time_ms : ℚ
  throughput_rps : ℚ
  error_rate : ℚ

/-- The per-endpoint analysis computed inside generate_scalability_report
(lines 488-513) for a bucket times, given the elapsed_time of the report
summary and the run-wide failed_requests counter. -/
def endpointAnalysis (times : List ℚ) (elapsed : ℚ) (failed_requests : Nat) :
    EndpointAnalysis :=
  { total_requests := times.length
    mean_response_time_ms := times.sum / (times.length : ℚ) * 1000
    median_response_time_ms := (sortQ times).getD (times.length / 2) 0 * 1000
    std_dev_ms_sq := serverVariance times * 1000000
    min_response_time_ms := pyMin times * 1000
    max_response_time_ms := pyMax times * 1000
    p95_response_time_ms :=
      if 1 < times.length then (sortQ times).getD (pyIdx times.length (19/20)) 0 * 1000
      else times.getD 0 0 * 1000
    p99_response_time_ms :=
      if 1 < times.length then (sortQ times).getD (pyIdx times.length (99/100)) 0 * 1000
      else times.getD 0 0 * 1000
    throughput_rps := if 0 < elapsed then (times.length : ℚ) / elapsed else 0
    error_rate := (failed_requests : ℚ) / ((max times.length 1 : ℕ) : ℚ) }

/-- The report test_summary (lines 477-483). -/
structure TestSummary where
  concurrent_users : Int
  total_requests : Nat
  failed_requests : Nat
  success_rate : ℚ
  elapsed_time : ℚ

/-- Builds report[test_summary] from the current metrics state; now stands
for time.perf_counter() at report time. -/
def testSummary (s : ServerMetrics) (now : ℚ) : TestSummary :=
  { concurrent_users := s.concurrent_requests
    total_requests := s.total_requests
    failed_requests := s.failed_requests
    success_rate :=
      ((s.total_requests : ℚ) - (s.failed_requests : ℚ)) / ((max s.total_requests 1 : ℕ) : ℚ)
    elapsed_time := elapsedTime s.start_time now }

/-- The structured report object of generate_scalability_report. -/
structure Report where
  timestamp : ℚ
  test_summary : TestSummary
  endpoint_analysis : List (String × EndpointAnalysis)

/-- The report built by generate_scalability_report once the empty-data
check has passed (lines 475-513); one analysis entry is produced for every
nonempty bucket, in insertion order. -/
def buildReport (s : ServerMetrics) (now : ℚ) : Report :=
  { timestamp := now
    test_summary := testSummary s now
    endpoint_analysis :=
      s.response_times.filterMap fun p =>
        if p.2.isEmpty then none
        else some (p.1, endpointAnalysis p.2 (testSummary s now).elapsed_time s.failed_requests) }

/-- One row appended to scalability_metrics.csv by _save_scalability_report
(lines 552-567); the decimal string formatting is not modelled. -/
structure ReportRow where
  timestamp : ℚ
  endpoint : String
  concurrent_users : Int
  total_requests : Nat
  failed_requests : Nat
  success_rate : ℚ
  mean_ms : ℚ
  median_ms : ℚ
  p95_ms : ℚ
  p99_ms : ℚ
  throughput_rps : ℚ
  error_rate : ℚ

/-- The rows _save_scalability_report appends for one report: one row per
analysed endpoint, in report order. -/
def reportRows (r : Report) : List ReportRow :=
  r.endpoint_analysis.map fun p =>
    { timestamp := r.timestamp, endpoint := p.1,
      concurrent_users := r.test_summary.concurrent_users,
      total_requests := p.2.total_requests,
      failed_requests := r.test_summary.failed_requests,
      success_rate := r.test_summary.success_rate,
      mean_ms := p.2.mean_response_time_ms,
      median_ms := p.2.median_response_time_ms,
      p95_ms := p.2.p95_response_time_ms,
      p99_ms := p.2.p99_response_time_ms,
      throughput_rps := p.2.throughput_rps,
      error_rate := p.2.error_rate }

/-- Outcome of one call of the /scalability_report handler: the handler
result (a report or the no-data error message), the HTTP status, and the
content of the durable CSV log after the call. -/
structure ReportOutcome where
  result : Except String Report
  status : Nat
  log : List ReportRow

/-- The generate_scalability_report handler (lines 467-522) combined with
the rows _save_scalability_report appends to the durable log: with no
bucket at all it answers 400 with the no-data error and leaves the log
alone; otherwise it builds the report, appends one row per endpoint and
answers 200. -/
def generate_scalability_report (s : ServerMetrics) (now : ℚ) (log : List ReportRow) :
    ReportOutcome :=
  if s.response_times.isEmpty then
    { result := Except.error "No metrics collected yet. Run stress test first.",
      status := 400, log := log }
  else
    { result := Except.ok (buildReport s now), status := 200,
      log := log ++ reportRows (buildReport s now) }

/-- One externally visible mutation of the server metrics state: a timed
request observed by after_request, a /stress_test/start call, or a
/stress_test/stop call. -/
inductive MetricsEvent
  | record (endpoint : String) (elapsed : ℚ) (status : Nat)
  | start (body : Option (Option Int)) (now : ℚ)
  | stop

/-- The state transition performed by one event. -/
def stepMetrics (s : ServerMetrics) : MetricsEvent → ServerMetrics
  | .record e t st => after_request s e t st
  | .start body now => (start_stress_test body s now).state
  | .stop => (stop_stress_test s).2

/-- The metrics state reached from process start by a sequence of events:
the quiescent-point states of the server. -/
def replayMetrics (evs : List MetricsEvent) : ServerMetrics :=
  evs.foldl stepMetrics initialMetrics

/-- Incrementing the counter of an endpoint in an association list. -/
def bumpCount : List (String × Nat) → String → List (String × Nat)
  | [], e => [(e, 1)]
  | (e', c) :: rest, e =>
    if e' = e then (e', c + 1) :: rest else (e', c) :: bumpCount rest e

/-- Reading the counter of an endpoint, 0 when absent. -/
def lookupCount (m : List (String × Nat)) (e : String) : Nat :=
  match m.lookup e with
  | some c => c
  | none => 0

/-- Instrumented transition: alongside the real state it keeps, for every
endpoint, the count of failed Samples (status at least 400) recorded into
the bucket of that endpoint since the last accepted start — a quantity the
server itself does not store. -/
def stepMetricsG (sg : ServerMetrics × List (String × Nat)) (e : MetricsEvent) :
    ServerMetrics × List (String × Nat) :=
  match e with
  | .record ep t st =>
    (after_request sg.1 ep t st,
     if sg.1.test_active then
       (if 400 ≤ st then bumpCount sg.2 ep else sg.2)
     else sg.2)
  | .start body now =>
    ((start_stress_test body sg.1 now).state,
     if (start_stress_test body sg.1 now).status = 200 then [] else sg.2)
  | .stop => ((stop_stress_test sg.1).2, sg.2)

/-- The instrumented state reached from process start. -/
def replayMetricsG (evs : List MetricsEvent) : ServerMetrics × List (String × Nat) :=
  evs.foldl stepMetricsG (initialMetrics, [])

/-- The total number of Samples held in the per-endpoint buckets. -/
def bucketCount (m : List (String × List ℚ)) : Nat :=
  (m.map (fun p => p.2.length)).sum

/-- A concrete event trace: an accepted start at instant 5, then a
successful request on endpoint A and a failed request on endpoint B. -/
def cexTrace : List MetricsEvent :=
  [MetricsEvent.start (some (some 10)) 5,
   MetricsEvent.record "A" (1/10) 200,
   MetricsEvent.record "B" (1/5) 500]

/-- A concrete metrics state: one successful sample on endpoint A, one
failed sample on endpoint B, counters as after_request leaves them. -/
def demoState : ServerMetrics :=
  { response_times := [("A", [1/10]), ("B", [1/5])], concurrent_requests := 10,
    total_requests := 2, failed_requests := 1, start_time := some 5,
    test_active := true }

/-- One entry of the errors list of load_test.py: the success branch
records request_id, status_code and response_time, the exception branch
records request_id, error and response_time; the two optional fields model
the two shapes. -/
structure ClientErrorRecord where
  request_id : Nat
  status_code : Option Nat
  error : Option String
  response_time : ℚ

/-- The mutable collections of a LoadTester instance (lines 19-28):
results is the defaultdict with the response_times and status_codes lists,
errors is the error list.  All three are mutated under self.lock. -/
structure LoadTesterState where
  response_times : List ℚ
  status_codes : List Nat
  errors : List ClientErrorRecord

/-- A freshly constructed LoadTester. -/
def initialTester : LoadTesterState :=
  { response_times := [], status_codes := [], errors := [] }

/-- What the network call inside make_request produced: a response with an
HTTP status, or a raised exception with its message text; either way the
elapsed wall-clock time since the recorded start is known. -/
inductive CallOutcome
  | response (status : Nat) (elapsed : ℚ)
  | failure (msg : String) (elapsed : ℚ)

/-- The dict returned by make_request. -/
structure RequestResult where
  request_id : Nat
  status_code : Nat
  response_time : ℚ
  success : Bool
  error : Option String

/-- LoadTester.make_request (lines 30-68).  On a response, the elapsed time
and the status code are appended to the results lists, plus an error
record when the status is at least 400.  On a raised exception only an
error record carrying the captured message is appended; the results lists
are left untouched, and the returned dict carries status_code 0. -/
def make_request (s : LoadTesterState) (request_id : Nat) (outcome : CallOutcome) :
    LoadTesterState × RequestResult :=
  match outcome with
  | .response status elapsed =>
    ({ response_times := s.response_times ++ [elapsed]
       status_codes := s.status_codes ++ [status]
       errors :=
         if 400 ≤ status then
           s.errors ++ [{ request_id := request_id, status_code := some status,
                          error := none, response_time := elapsed }]
         else s.errors },
     { request_id := request_id, status_code := status, response_time := elapsed,
       success := decide (status < 400), error := none })
  | .failure msg elapsed =>
    ({ s with
       errors := s.errors ++ [{ request_id := request_id, status_code := none,
                                error := some msg, response_time := elapsed }] },
     { request_id := request_id, status_code := 0, response_time := elapsed,
       success := false, error := some msg })

/-- The expression total_requests = len(response_times) of run_test
(line 140). -/
def clientTotalRequests (s : LoadTesterState) : Nat := s.response_times.length

/-- The expression successful_requests = sum(1 for sc in status_codes if
sc < 400) of run_test (line 141). -/
def clientSuccessfulRequests (s : LoadTesterState) : Nat :=
  (s.status_codes.filter (fun sc => decide (sc < 400))).length

/-- The expression failed_requests = total_requests - successful_requests
of run_test (line 142); both operands are natural numbers and the
difference is never negative because every recorded status code is
counted in at most one of the two classes. -/
def clientFailedRequests (s : LoadTesterState) : Nat :=
  clientTotalRequests s - clientSuccessfulRequests s

/-- Python statistics.mean: the arithmetic average. -/
def clientMean (xs : List ℚ) : ℚ := xs.sum / (xs.length : ℚ)

/-- Python statistics.median as called on line 153: the middle element of
the ascending sort for odd length, and the average of the two middle
elements for even length. -/
def clientMedian (xs : List ℚ) : ℚ :=
  if (sortQ xs).length % 2 = 1 then (sortQ xs).getD ((sortQ xs).length / 2) 0
  else ((sortQ xs).getD ((sortQ xs).length / 2 - 1) 0
        + (sortQ xs).getD ((sortQ xs).length / 2) 0) / 2

/-- The square of Python statistics.stdev as called on line 156: the sample
variance, dividing the sum of squared deviations from the mean by n - 1. -/
def clientVariance (xs : List ℚ) : ℚ :=
  (xs.map (fun t => (t - xs.sum / (xs.length : ℚ)) ^ 2)).sum / ((xs.length : ℚ) - 1)

/-- The p95 of run_test (line 162):
sorted_times[int(n * 0.95)] * 1000 if n > 1 else sorted_times[0] * 1000. -/
def p95_client (xs : List ℚ) : ℚ :=
  if 1 < xs.length then (sortQ xs).getD (pyIdx xs.length (19/20)) 0 * 1000
  else (sortQ xs).getD 0 0 * 1000

/-- The p99 of run_test (line 163). -/
def p99_client (xs : List ℚ) : ℚ :=
  if 1 < xs.length then (sortQ xs).getD (pyIdx xs.length (99/100)) 0 * 1000
  else (sortQ xs).getD 0 0 * 1000

theorem getD_mem_of_lt (l : List ℚ) (i : ℕ) (h : i < l.length) : l.getD i 0 ∈ l := by
  rw [List.getD_eq_getElem l 0 h]
  exact List.getElem_mem h

theorem le_foldl_max_init (xs : List ℚ) (a : ℚ) : a ≤ xs.foldl max a := by
  induction xs generalizing a with
  | nil => simp
  | cons x xs ih => exact le_trans (le_max_left a x) (ih (max a x))

theorem mem_le_foldl_max (xs : List ℚ) (a x : ℚ) (h : x ∈ xs) : x ≤ xs.foldl max a := by
  induction xs generalizing a with
  | nil => cases h
  | cons y ys ih =>
    rcases List.mem_cons.mp h with h1 | h2
    · subst h1
      exact le_trans (le_max_right a x) (le_foldl_max_init ys (max a x))
    · exact ih (max a y) h2

theorem mem_le_pyMax (xs : List ℚ) (x : ℚ) (h : x ∈ xs) : x ≤ pyMax xs := by
  cases xs with
  | nil => cases h
  | cons y ys =>
    rcases List.mem_cons.mp h with h1 | h2
    · subst h1
      exact le_foldl_max_init ys x
    · exact mem_le_foldl_max ys y x h2

theorem pyIdx_lt (n : ℕ) (p : ℚ) (hp : p < 1) (hn : 1 ≤ n) : pyIdx n p < n := by
  unfold pyIdx
  have h0 : (1 : ℚ) ≤ (n : ℚ) := by exact_mod_cast hn
  have h1 : ⌊(n : ℚ) * p⌋ < (n : ℤ) := by
    rw [Int.floor_lt]
    push_cast
    nlinarith [mul_pos (by linarith : (0 : ℚ) < (n : ℚ)) (by linarith : (0 : ℚ) < 1 - p)]
  omega

theorem pyIdx_mono (n : ℕ) (p q : ℚ) (h : p ≤ q) : pyIdx n p ≤ pyIdx n q := by
  unfold pyIdx
  have h1 : ⌊(n : ℚ) * p⌋ ≤ ⌊(n : ℚ) * q⌋ := by
    apply Int.floor_le_floor
    have h0 : (0 : ℚ) ≤ (n : ℚ) := by positivity
    exact mul_le_mul_of_nonneg_left h h0
  omega

theorem bucketCount_appendSample (m : List (String × List ℚ)) (e : String) (t : ℚ) :
    bucketCount (appendSample m e t) = bucketCount m + 1 := by
  induction m with
  | nil => simp [appendSample, bucketCount]
  | cons p rest ih =>
    obtain ⟨e', ts⟩ := p
    by_cases h : e' = e
    · simp [appendSample, h, bucketCount]
      omega
    · simp only [appendSample, h, if_false, bucketCount, List.map_cons, List.sum_cons]
      simp only [bucketCount] at ih
      omega

theorem stepMetrics_preserves (s : ServerMetrics) (e : MetricsEvent)
    (h : s.total_requests = bucketCount s.response_times) :
    (stepMetrics s e).total_requests = bucketCount (stepMetrics s e).response_times := by
  cases e with
  | record ep t st =>
    by_cases ha : s.test_active
    · simp [stepMetrics, after_request, ha, bucketCount_appendSample, h]
    · simp [stepMetrics, after_request, ha, h]
  | start body now =>
    simp only [stepMetrics, start_stress_test]
    by_cases hc : ((body.getD none).getD 10 < 1 ∨ 1000 < (body.getD none).getD 10)
    · simpa [hc] using h
    · simp [hc, bucketCount]
  | stop =>
    simpa [stepMetrics, stop_stress_test] using h

theorem foldl_stepMetrics_preserves (evs : List MetricsEvent) :
    ∀ s : ServerMetrics, s.total_requests = bucketCount s.response_times →
      (evs.foldl stepMetrics s).total_requests
        = bucketCount (evs.foldl stepMetrics s).response_times := by
  induction evs with
  | nil => intro s h; simpa using h
  | cons e evs ih => intro s h; exact ih (stepMetrics s e) (stepMetrics_preserves s e h)

/-- C9: at every quiescent point — every state reachable from process start
by a sequence of recorded requests, start calls and stop calls —
total_requests equals the sum of the per-endpoint bucket lengths: record
appends the sample and bumps the counter together, an accepted start
clears the buckets and zeroes the counter together, and stop touches
neither. -/
theorem counters_match_buckets (evs : List MetricsEvent) :
    (replayMetrics evs).total_requests = bucketCount (replayMetrics evs).response_times :=
  foldl_stepMetrics_preserves evs initialMetrics (by simp [initialMetrics, bucketCount])

/-- C5: stop is idempotent: calling it while inactive leaves the whole
state unchanged, a second stop leaves the state of the first stop
unchanged, and the reports generated (at the same instant, over the same
log) after one stop and after two stops are equal, summary included. -/
theorem stop_idempotent (s : ServerMetrics) (now : ℚ) (log : List ReportRow) :
    (s.test_active = false → (stop_stress_test s).2 = s) ∧
    (stop_stress_test (stop_stress_test s).2).2 = (stop_stress_test s).2 ∧
    generate_scalability_report (stop_stress_test (stop_stress_test s).2).2 now log
      = generate_scalability_report (stop_stress_test s).2 now log := by
  refine ⟨?_, rfl, rfl⟩
  intro h
  cases s
  simp_all [stop_stress_test]

/-- Witness for C5 at the initial (inactive) state. -/
theorem stop_idempotent_witness :
    initialMetrics.test_active = false ∧ (stop_stress_test initialMetrics).2 = initialMetrics :=
  ⟨rfl, (stop_idempotent initialMetrics 0 []).1 rfl⟩

/-- C6: start_stress_test rejects an expected concurrency outside [1, 1000]
with a 400 and no state change, and accepts an in-range value with a 200,
echoing it and resetting the whole metrics state: buckets cleared,
counters zeroed, target stored, start instant recorded, active set. -/
theorem start_validation (s : ServerMetrics) (now : ℚ) (k : ℤ) :
    ((k < 1 ∨ 1000 < k) →
      (start_stress_test (some (some k)) s now).status = 400 ∧
      (start_stress_test (some (some k)) s now).state = s) ∧
    (1 ≤ k → k ≤ 1000 →
      (start_stress_test (some (some k)) s now).status = 200 ∧
      (start_stress_test (some (some k)) s now).concurrentUsers = some k ∧
      (start_stress_test (some (some k)) s now).state =
        { response_times := [], concurrent_requests := k, total_requests := 0,
          failed_requests := 0, start_time := some now, test_active := true }) := by
  constructor
  · intro h
    simp [start_stress_test, h]
  · intro h1 h2
    have h : ¬(k < 1 ∨ 1000 < k) := by omega
    simp [start_stress_test, h]

/-- Witness for C6: 0 and 1500 are rejected without touching the state,
10 is accepted. -/
theorem start_validation_witness :
    ((0 : ℤ) < 1 ∨ 1000 < (0 : ℤ)) ∧
    (start_stress_test (some (some 0)) initialMetrics 0).status = 400 ∧
    (start_stress_test (some (some 0)) initialMetrics 0).state = initialMetrics ∧
    (start_stress_test (some (some 1500)) initialMetrics 0).status = 400 ∧
    ((1 : ℤ) ≤ 10 ∧ (10 : ℤ) ≤ 1000) ∧
    (start_stress_test (some (some 10)) initialMetrics 5).status = 200 :=
  ⟨Or.inl (by norm_num),
   ((start_validation initialMetrics 0 0).1 (Or.inl (by norm_num))).1,
   ((start_validation initialMetrics 0 0).1 (Or.inl (by norm_num))).2,
   ((start_validation initialMetrics 0 1500).1 (Or.inr (by norm_num))).1,
   ⟨by norm_num, by norm_num⟩,
   ((start_validation initialMetrics 5 10).2 (by norm_num) (by norm_num)).1⟩

/-- C10: a start request with no JSON body, or with a JSON object that
omits concurrentUsers, is treated exactly as concurrentUsers = 10: it is
accepted with a 200 echoing 10, resets all buckets and counters, stores
the target 10, records the start instant and activates tracking. -/
theorem start_default_concurrency (s : ServerMetrics) (now : ℚ)
    (body : Option (Option ℤ)) (h : body = none ∨ body = some none) :
    (start_stress_test body s now).status = 200 ∧
    (start_stress_test body s now).concurrentUsers = some 10 ∧
    (start_stress_test body s now).state =
      { response_times := [], concurrent_requests := 10, total_requests := 0,
        failed_requests := 0, start_time := some now, test_active := true } := by
  rcases h with h | h <;> subst h <;> norm_num [start_stress_test]

/-- Witness for C10 with no JSON body at all. -/
theorem start_default_concurrency_witness :
    ((none : Option (Option ℤ)) = none ∨ (none : Option (Option ℤ)) = some none) ∧
    (start_stress_test none initialMetrics 3).status = 200 ∧
    (start_stress_test none initialMetrics 3).concurrentUsers = some 10 :=
  ⟨Or.inl rfl,
   (start_default_concurrency initialMetrics 3 none (Or.inl rfl)).1,
   (start_default_concurrency initialMetrics 3 none (Or.inl rfl)).2.1⟩

/-- C8: generating the report over a state with no bucket at all yields the
distinguishable no-data error with HTTP status 400 and appends nothing to
the durable log; no report object is produced. -/
theorem report_no_data (s : ServerMetrics) (now : ℚ) (log : List ReportRow)
    (h : s.response_times = []) :
    (generate_scalability_report s now log).result
        = Except.error "No metrics collected yet. Run stress test first." ∧
    (generate_scalability_report s now log).status = 400 ∧
    (generate_scalability_report s now log).log = log := by
  simp [generate_scalability_report, h]

/-- Witness for C8 at the initial state. -/
theorem report_no_data_witness :
    initialMetrics.response_times = [] ∧
    (generate_scalability_report initialMetrics 0 []).status = 400 ∧
    (generate_scalability_report initialMetrics 0 []).log = [] :=
  ⟨rfl, (report_no_data initialMetrics 0 [] rfl).2.1, (report_no_data initialMetrics 0 [] rfl).2.2⟩

/-- Counterexample for C1: in the state reached by cexTrace — one
successful sample on endpoint A, one failed sample on endpoint B — the
bucket of A holds zero failed Samples, yet the report gives A the
error_rate 1, because the code divides the run-wide failed_requests
counter (here 1, from the failure on B) by the bucket size, not the failed
count of the bucket itself. -/
theorem error_rate_not_per_bucket_cex :
    replayMetricsG cexTrace = (demoState, [("B", 1)]) ∧
    (buildReport demoState 7).endpoint_analysis.map
        (fun p => (p.1, p.2.error_rate, p.2.total_requests))
      = [("A", 1, 1), ("B", 1, 1)] ∧
    lookupCount [("B", 1)] "A" = 0 ∧
    ((1 : ℚ) ≠ (0 : ℚ) / 1) := by
  refine ⟨?_, ?_, ?_, by norm_num⟩
  · simp only [replayMetricsG, cexTrace, List.foldl_cons, List.foldl_nil, stepMetricsG,
      start_stress_test, after_request, stop_stress_test, initialMetrics, demoState]
    norm_num [appendSample, bumpCount]
    decide
  · simp only [buildReport, demoState, testSummary, elapsedTime, List.filterMap]
    norm_num [endpointAnalysis]
  · simp [lookupCount, List.lookup]

/-- C1 (amended): for every per-endpoint entry of a generated Reduced
Report, error_rate equals the run-wide failed_requests counter divided by
the number n of Samples in that endpoint bucket (with n at least 1, since
only nonempty buckets are reported) — failures recorded on other endpoints
are included in the numerator. -/
theorem error_rate_global_over_bucket (s : ServerMetrics) (now : ℚ) (e : String)
    (a : EndpointAnalysis) (h : (e, a) ∈ (buildReport s now).endpoint_analysis) :
    1 ≤ a.total_requests ∧
    a.error_rate = (s.failed_requests : ℚ) / (a.total_requests : ℚ) := by
  simp only [buildReport, List.mem_filterMap] at h
  obtain ⟨p, hp, hpa⟩ := h
  by_cases hne : p.2.isEmpty
  · simp [hne] at hpa
  · simp only [hne, Bool.false_eq_true, if_false, Option.some.injEq, Prod.mk.injEq] at hpa
    obtain ⟨h1, h2⟩ := hpa
    subst h2
    have hl : 0 < p.2.length := by
      cases q : p.2 with
      | nil => rw [q] at hne; simp at hne
      | cons x xs => simp [q]
    refine ⟨by simpa [endpointAnalysis] using hl, ?_⟩
    simp only [endpointAnalysis]
    rw [Nat.max_eq_left hl]

/-- Witness for C1 (amended) at the concrete state demoState. -/
theorem error_rate_global_over_bucket_witness :
    (("A", endpointAnalysis [1/10] 2 1) ∈ (buildReport demoState 7).endpoint_analysis) ∧
    1 ≤ (endpointAnalysis [1/10] 2 1).total_requests ∧
    (endpointAnalysis [1/10] 2 1).error_rate
      = ((demoState.failed_requests : ℚ)
          / ((endpointAnalysis [1/10] 2 1).total_requests : ℚ)) := by
  have hmem : ("A", endpointAnalysis [1/10] 2 1)
      ∈ (buildReport demoState 7).endpoint_analysis := by
    simp only [buildReport, demoState, testSummary, elapsedTime, List.filterMap]
    norm_num
  exact ⟨hmem, error_rate_global_over_bucket demoState 7 "A" _ hmem⟩

/-- Counterexample for C2: from a fresh tester, one request whose network
call raises is not appended to the local Sample Set: the response_times
list stays empty, the final statistics count 0 total and 0 failed
requests, and the only trace of the request is the error record. -/
theorem failed_call_not_in_samples_cex :
    ((make_request initialTester 0 (CallOutcome.failure "Connection refused" (1/2))).1.response_times
        = []) ∧
    clientTotalRequests
        (make_request initialTester 0 (CallOutcome.failure "Connection refused" (1/2))).1 = 0 ∧
    clientFailedRequests
        (make_request initialTester 0 (CallOutcome.failure "Connection refused" (1/2))).1 = 0 ∧
    (make_request initialTester 0 (CallOutcome.failure "Connection refused" (1/2))).1.errors.length
        = 1 := by
  simp [make_request, initialTester, clientTotalRequests, clientFailedRequests,
    clientSuccessfulRequests]

/-- C2 (amended): a request whose network call raises records the elapsed
time only in an error record carrying the captured message, and in the
returned dict with status 0; nothing is appended to the results lists, so
the request is counted in neither total_requests nor failed_requests of
the final statistics. -/
theorem failed_call_only_error_record (s : LoadTesterState) (rid : Nat)
    (msg : String) (t : ℚ) :
    ((make_request s rid (CallOutcome.failure msg t)).1.response_times = s.response_times) ∧
    ((make_request s rid (CallOutcome.failure msg t)).1.status_codes = s.status_codes) ∧
    ((make_request s rid (CallOutcome.failure msg t)).1.errors
        = s.errors ++ [{ request_id := rid, status_code := none, error := some msg,
                         response_time := t }]) ∧
    ((make_request s rid (CallOutcome.failure msg t)).2
        = { request_id := rid, status_code := 0, response_time := t, success := false,
            error := some msg }) ∧
    clientTotalRequests (make_request s rid (CallOutcome.failure msg t)).1
      = clientTotalRequests s ∧
    clientFailedRequests (make_request s rid (CallOutcome.failure msg t)).1
      = clientFailedRequests s := by
  simp [make_request, clientTotalRequests, clientFailedRequests, clientSuccessfulRequests]

/-- Counterexample for C3: on the even-length durations [1, 2] the
client-side reducer (statistics.median) interpolates to 3/2, while the
fixed nearest-rank rule of the claim gives the element at index 1 of the
ascending sort, namely 2. -/
theorem client_median_interpolates_cex :
    clientMedian [1, 2] = 3/2 ∧ median_metrics [1, 2] = 2 ∧ ((3 : ℚ)/2 ≠ 2) := by
  norm_num [clientMedian, median_metrics, sortQ, List.insertionSort, List.orderedInsert]

/-- C3 (amended): both server-side reducers take the median as the element
at index n/2 (integer division) of the ascending sort; the client-side
reducer agrees with that fixed nearest-rank tie-break only for odd n, and
interpolates (averages the two middle elements) for even n. -/
theorem median_nearest_rank (xs : List ℚ) (el : ℚ) (f : Nat) (h : xs ≠ []) :
    median_metrics xs = (sortQ xs).getD (xs.length / 2) 0 ∧
    (endpointAnalysis xs el f).median_response_time_ms
      = (sortQ xs).getD (xs.length / 2) 0 * 1000 ∧
    (xs.length % 2 = 1 → clientMedian xs = (sortQ xs).getD (xs.length / 2) 0) := by
  have hl : 0 < xs.length := List.length_pos.mpr h
  have hs : (sortQ xs).length = xs.length := List.length_insertionSort _ xs
  refine ⟨by simp [median_metrics, hl], rfl, ?_⟩
  intro hodd
  simp [clientMedian, hs, hodd]

/-- Witness for C3 (amended) at the durations [3, 1, 2]. -/
theorem median_nearest_rank_witness :
    (([3, 1, 2] : List ℚ) ≠ []) ∧
    median_metrics [3, 1, 2] = (sortQ [3, 1, 2]).getD (([3, 1, 2] : List ℚ).length / 2) 0 ∧
    (([3, 1, 2] : List ℚ).length % 2 = 1 →
      clientMedian [3, 1, 2] = (sortQ [3, 1, 2]).getD (([3, 1, 2] : List ℚ).length / 2) 0) :=
  ⟨by simp,
   (median_nearest_rank [3, 1, 2] 1 0 (by simp)).1,
   (median_nearest_rank [3, 1, 2] 1 0 (by simp)).2.2⟩

theorem sum_sq_dev (xs : List ℚ) (m : ℚ) :
    (xs.map (fun t => (t - m) ^ 2)).sum
      = (xs.map (fun t => t ^ 2)).sum - 2 * m * xs.sum + (xs.length : ℚ) * m ^ 2 := by
  induction xs with
  | nil => simp
  | cons x xs ih =>
    simp only [List.map_cons, List.sum_cons, List.length_cons, ih]
    push_cast
    ring

/-- Counterexample for C4: on the example durations [10, 20, 30, 40, 50]
the server-side standard deviation squares to the population variance 200
(std-dev about 14.14), but the client-side reducer (statistics.stdev)
squares to the sample variance 250, whose root exceeds 14.15 — so the
client-side standard deviation is not the population one and is not about
14.14. -/
theorem client_std_dev_not_population_cex :
    serverVariance [10, 20, 30, 40, 50] = 200 ∧
    clientVariance [10, 20, 30, 40, 50] = 250 ∧
    ((250 : ℚ) ≠ 200) ∧
    ((1415 : ℚ)/100) ^ 2 < 250 := by
  refine ⟨by norm_num [serverVariance], by norm_num [clientVariance], by norm_num, by norm_num⟩

/-- C4 (amended): the server-side reducer uses the population variance
(divide by n: it agrees with the moment form, mean of squares minus square
of the mean), giving variance 200 — standard deviation about 14.14 —
on the example durations; the client-side reducer divides by n - 1
(sample variance, n / (n-1) times the population variance), giving 250 —
standard deviation about 15.81 — on the example. -/
theorem std_dev_population_server_sample_client :
    (∀ xs : List ℚ, 1 ≤ xs.length → serverVariance xs = momentVariance xs) ∧
    (∀ xs : List ℚ, 2 ≤ xs.length →
      clientVariance xs = (xs.length : ℚ) / ((xs.length : ℚ) - 1) * serverVariance xs) ∧
    serverVariance [10, 20, 30, 40, 50] = 200 ∧
    ((1414 : ℚ)/100) ^ 2 < 200 ∧ (200 : ℚ) < ((1415 : ℚ)/100) ^ 2 ∧
    clientVariance [10, 20, 30, 40, 50] = 250 ∧
    ((1581 : ℚ)/100) ^ 2 < 250 ∧ (250 : ℚ) < ((1582 : ℚ)/100) ^ 2 := by
  refine ⟨?_, ?_, by norm_num [serverVariance], by norm_num, by norm_num,
    by norm_num [clientVariance], by norm_num, by norm_num⟩
  · intro xs h
    have hn : (0 : ℚ) < (xs.length : ℚ) := by
      have h1 : (1 : ℚ) ≤ (xs.length : ℚ) := by exact_mod_cast h
      linarith
    rw [serverVariance, momentVariance, sum_sq_dev]
    field_simp
    ring
  · intro xs h
    have hn : (2 : ℚ) ≤ (xs.length : ℚ) := by exact_mod_cast h
    have h0 : (xs.length : ℚ) ≠ 0 := by linarith
    have h1 : (xs.length : ℚ) - 1 ≠ 0 := by
      intro hc
      rw [sub_eq_zero] at hc
      rw [hc] at hn
      norm_num at hn
    rw [clientVariance, serverVariance]
    field_simp
    ring

/-- Witness for C4 (amended), discharging the length hypotheses at the
concrete durations [10, 20, 30, 40, 50]. -/
theorem std_dev_population_server_sample_client_witness :
    1 ≤ ([10, 20, 30, 40, 50] : List ℚ).length ∧
    2 ≤ ([10, 20, 30, 40, 50] : List ℚ).length ∧
    serverVariance [10, 20, 30, 40, 50] = momentVariance [10, 20, 30, 40, 50] ∧
    clientVariance [10, 20, 30, 40, 50]
      = (([10, 20, 30, 40, 50] : List ℚ).length : ℚ)
          / ((([10, 20, 30, 40, 50] : List ℚ).length : ℚ) - 1)
          * serverVariance [10, 20, 30, 40, 50] :=
  ⟨by norm_num, by norm_num,
   std_dev_population_server_sample_client.1 [10, 20, 30, 40, 50] (by norm_num),
   std_dev_population_server_sample_client.2.1 [10, 20, 30, 40, 50] (by norm_num)⟩

/-- C7: for every duration sequence of length n at least 1, the p95 index
floor(n * 0.95) and the p99 index floor(n * 0.99) are at most n - 1 (so
clamping to n - 1 changes nothing and both are in bounds of the sorted
sequence), the selected values are the elements of the ascending sort at
those clamped indices, the p99 rank is at least the p95 rank, both
reported values are at most the maximum, for n = 1 both percentiles equal
the single value, and the client-side selection of run_test equals the
server-side one scaled to milliseconds. -/
theorem percentile_properties (times : List ℚ) (h : 1 ≤ times.length) :
    pyIdx times.length (19/20) ≤ times.length - 1 ∧
    pyIdx times.length (99/100) ≤ times.length - 1 ∧
    pyIdx times.length (19/20) ≤ pyIdx times.length (99/100) ∧
    p95_metrics times
      = (sortQ times).getD (min (pyIdx times.length (19/20)) (times.length - 1)) 0 ∧
    p99_metrics times
      = (sortQ times).getD (min (pyIdx times.length (99/100)) (times.length - 1)) 0 ∧
    p95_metrics times ≤ pyMax times ∧
    p99_metrics times ≤ pyMax times ∧
    (times.length = 1 →
      p95_metrics times = times.getD 0 0 ∧ p99_metrics times = times.getD 0 0) ∧
    p95_client times = p95_metrics times * 1000 ∧
    p99_client times = p99_metrics times * 1000 := by
  have h95 := pyIdx_lt times.length (19/20) (by norm_num) h
  have h99 := pyIdx_lt times.length (99/100) (by norm_num) h
  have hmono := pyIdx_mono times.length (19/20) (99/100) (by norm_num)
  have hs : (sortQ times).length = times.length := List.length_insertionSort _ times
  by_cases h1 : 1 < times.length
  · have e95 : p95_metrics times = (sortQ times).getD (pyIdx times.length (19/20)) 0 := by
      simp [p95_metrics, h1]
    have e99 : p99_metrics times = (sortQ times).getD (pyIdx times.length (99/100)) 0 := by
      simp [p99_metrics, h1]
    have m95 : p95_metrics times ∈ times := by
      rw [e95]
      have hm : (sortQ times).getD (pyIdx times.length (19/20)) 0 ∈ sortQ times :=
        getD_mem_of_lt _ _ (by omega)
      exact (List.mem_insertionSort _).mp hm
    have m99 : p99_metrics times ∈ times := by
      rw [e99]
      have hm : (sortQ times).getD (pyIdx times.length (99/100)) 0 ∈ sortQ times :=
        getD_mem_of_lt _ _ (by omega)
      exact (List.mem_insertionSort _).mp hm
    refine ⟨by omega, by omega, hmono, ?_, ?_,
      mem_le_pyMax times _ m95, mem_le_pyMax times _ m99,
      fun hc => absurd hc (by omega), ?_, ?_⟩
    · rw [e95, min_eq_left (by omega : pyIdx times.length (19/20) ≤ times.length - 1)]
    · rw [e99, min_eq_left (by omega : pyIdx times.length (99/100) ≤ times.length - 1)]
    · simp [p95_client, h1, e95]
    · simp [p99_client, h1, e99]
  · have hlen : times.length = 1 := by omega
    obtain ⟨a, ha⟩ := List.length_eq_one.mp hlen
    subst ha
    have i95 : pyIdx 1 (19/20) = 0 := by
      have hlt := pyIdx_lt 1 (19/20) (by norm_num) (le_refl 1)
      omega
    have i99 : pyIdx 1 (99/100) = 0 := by
      have hlt := pyIdx_lt 1 (99/100) (by norm_num) (le_refl 1)
      omega
    simp [p95_metrics, p99_metrics, p95_client, p99_client, pyMax, sortQ,
      List.insertionSort, List.orderedInsert, i95, i99]

/-- Witness for C7 at the durations [3, 1, 2], instantiating the in-bounds
and ordering conjuncts. -/
theorem percentile_properties_witness :
    1 ≤ ([3, 1, 2] : List ℚ).length ∧
    p95_metrics [3, 1, 2] ≤ pyMax [3, 1, 2] ∧
    p95_client [3, 1, 2] = p95_metrics [3, 1, 2] * 1000 := by
  have hp := percentile_properties [3, 1, 2] (by norm_num)
  exact ⟨by norm_num, hp.2.2.2.2.2.1, hp.2.2.2.2.2.2.2.2.1⟩
